import Mathlib

/-!
Verification of the DSL route health alert pipeline.

The development shallowly embeds the two JavaScript entry points of the
repository: the HTTP-triggered cloud function `monitorDSLRoutes` (with its
helpers `storeUnhealthyRoutes` and `sendSlackAlert`) and the one-shot dev
script `testTelerivetRoutes`.

Embedding conventions:
* JavaScript numbers are modelled as exact rationals (`ℚ`); a field whose
  runtime value may be a non-number is modelled as an `Option`: `some q`
  exactly when the JavaScript `typeof` test for `"number"` succeeds
  (`NaN`/`Infinity` and floating-point rounding are outside the model).
* `typeof x === "boolean"` fields are `Option Bool`, string fields are
  `Option String` (`none` = `null`/`undefined`/non-string).
* Side effects (database connect/insert/release, chat posts, error and
  warning logs) are recorded in an explicit effect trace; an exception
  that escapes a function is the `Option String` component of its result.
* External nondeterminism (the upstream fetch result, per-insert and
  per-post success, the random UUID stream, the owner table) is an
  explicit `World` record passed to each embedded function.
-/

namespace RouteHealth

/-- Rendering of a JavaScript number with one decimal digit, as done by
`minutesAgo.toFixed(1)`: the exact rational is rounded half away from zero
to one decimal place.  Implemented on the numerator/denominator directly so
that concrete instances evaluate by `decide`. -/
def toFixed1 (q : ℚ) : String :=
  let p : Int := q.num * 10
  let d : Int := (q.den : Int)
  let n : Int :=
    if 0 ≤ p then Int.fdiv (2 * p + d) (2 * d)
    else -Int.fdiv (2 * (-p) + d) (2 * d)
  (if n < 0 then "-" else "") ++ toString (n.natAbs / 10) ++ "." ++
    toString (n.natAbs % 10)

/-- Rendering of a JavaScript number inside a template literal such as
`` `Critical battery level (${r.battery}%)` ``.  Integral values render as
their integer string (the case every battery percentage hits); a
non-integral rational is rendered as an exact fraction. -/
def renderNum (q : ℚ) : String :=
  if q.den = 1 then toString q.num
  else toString q.num ++ "/" ++ toString q.den

/-- JSON escape of a single character, as in `JSON.stringify`. -/
def jsonEscapeChar (c : Char) : String :=
  if c = '"' then "\\\""
  else if c = '\\' then "\\\\"
  else if c = '\n' then "\\n"
  else if c = '\t' then "\\t"
  else if c = '\r' then "\\r"
  else String.singleton c

/-- JSON serialization of one string, as in `JSON.stringify`. -/
def jsonQuote (s : String) : String :=
  "\"" ++ String.join (s.data.map jsonEscapeChar) ++ "\""

/-- JSON serialization of a string array: `JSON.stringify(issues)`. -/
def jsonArrayOfList (xs : List String) : String :=
  "[" ++ String.intercalate "," (xs.map jsonQuote) ++ "]"

/-- One record of the upstream device list, as consumed by the pipeline.
`battery` is `some` exactly when `typeof r.battery === "number"`,
`charging` is `some` exactly when the value is a boolean,
`last_active_time` (epoch seconds) is `some` exactly when numeric, and
`dsl_managed` is `some b` when `r.vars.dsl_managed` is the boolean `b`
(`none` covers an absent `vars` or a non-boolean flag). -/
structure DeviceRecord where
  id : Option String
  name : Option String
  phone_number : Option String
  country : Option String
  app_version : Option String
  battery : Option ℚ
  charging : Option Bool
  last_active_time : Option ℚ
  dsl_managed : Option Bool
deriving DecidableEq

/-- An unhealthy record as pushed onto `unhealthyRoutes`: the copied
identifying fields plus the non-empty issue list. -/
structure UnhealthyRoute where
  id : Option String
  name : Option String
  phone_number : Option String
  country : Option String
  app_version : Option String
  battery : Option ℚ
  charging : Option Bool
  last_active_time : Option ℚ
  issues : List String
deriving DecidableEq

/-- The values bound to the `INSERT INTO unhealthy_routes_log` statement
(the `created_at` column is server-assigned and not part of the bind). -/
structure LoggedRow where
  run_id : String
  route_id : String
  route_name : Option String
  phone_number : Option String
  country : Option String
  app_version : Option String
  battery : Option ℚ
  charging : Option Bool
  last_active_time : Option ℚ
  issues : String
deriving DecidableEq

/-- Observable side effects of one pipeline run.  `log` records the
context string of `logError` / `console.warn` diagnostics. -/
inductive Effect where
  | dbConnect : Effect
  | dbInsert : LoggedRow → Effect
  | dbRelease : Effect
  | slackPost : String → Effect
  | log : String → Effect
deriving DecidableEq

/-- The external collaborators of one invocation: the fetch outcome
(`Except` for a thrown request error; the payload is `none` when
`response.data.data` is not an array), the connection-pool and per-insert
outcomes, the chat configuration and delivery outcome, the UUID stream
drawn from `crypto.randomUUID`, the generated run id, the clock, and the
static `routeOwners.json` table. -/
structure World where
  fetchResult : Except String (Option (List DeviceRecord))
  now : ℚ
  runId : String
  uuids : Nat → String
  connectResult : Except String Unit
  insertResult : Nat → Option String
  slackConfigured : Bool
  slackResult : Option String
  routeOwners : String → Option String

/-- Issue text of the critical battery rule. -/
def criticalMsg (b : ℚ) : String :=
  "Critical battery level (" ++ renderNum b ++ "%)"

/-- Issue text of the low-battery-not-charging rule. -/
def lowMsg (b : ℚ) : String :=
  "Battery low and not charging (" ++ renderNum b ++ "%)"

/-- Issue text of the stale-last-active rule. -/
def staleMsg (minutesAgo : ℚ) : String :=
  "Last active " ++ toFixed1 minutesAgo ++ " minutes ago"

/-- The staleness check of the classifier loop: `!r.last_active_time`
(absent or zero) yields "Never reported active"; otherwise the lag in
minutes is computed and flagged when above one minute. -/
def stalenessIssues (now : ℚ) (r : DeviceRecord) : List String :=
  match r.last_active_time with
  | none => ["Never reported active"]
  | some t =>
      if t = 0 then ["Never reported active"]
      else
        let minutesAgo := (now - t * 1000) / 60000
        if 1 < minutesAgo then [staleMsg minutesAgo] else []

/-- The battery check of the classifier loop: evaluated only for numeric
battery values; critical below 20, else low-and-not-charging below 30 when
`charging === false`. -/
def batteryIssues (r : DeviceRecord) : List String :=
  match r.battery with
  | none => []
  | some b =>
      if b < 20 then [criticalMsg b]
      else if b < 30 ∧ r.charging = some false then [lowMsg b]
      else []

/-- The per-record body of the classification loop: the staleness issues
are pushed first, then the battery issues.  This code is shared verbatim
by `monitorDSLRoutes` and the dev script `testTelerivetRoutes`. -/
def classify (now : ℚ) (r : DeviceRecord) : List String :=
  stalenessIssues now r ++ batteryIssues r

/-- The object pushed onto `unhealthyRoutes` for a record with issues. -/
def toUnhealthy (r : DeviceRecord) (issues : List String) : UnhealthyRoute :=
  { id := r.id, name := r.name, phone_number := r.phone_number,
    country := r.country, app_version := r.app_version,
    battery := r.battery, charging := r.charging,
    last_active_time := r.last_active_time, issues := issues }

/-- The classification loop over a route list: records with at least one
issue are collected, in input order. -/
def unhealthyOf (now : ℚ) (routes : List DeviceRecord) : List UnhealthyRoute :=
  routes.filterMap fun r =>
    let issues := classify now r
    if issues.isEmpty then none else some (toUnhealthy r issues)

/-- JavaScript truthiness of an optional string (`"" `, `null` and
`undefined` are falsy). -/
def truthy : Option String → Bool
  | some s => s ≠ ""
  | none => false

/-- The JavaScript `||` operator on two optional strings. -/
def jsOr (a b : Option String) : Option String :=
  if truthy a then a else b

/-- Interpolation of an optional string into a template literal
(`undefined` renders as "undefined"). -/
def jsStr : Option String → String
  | some s => s
  | none => "undefined"

/-- The bound row values of one insert in `storeUnhealthyRoutes`: the
`??` fallback id, the `|| null` string columns, the `typeof`-guarded
numeric/boolean columns, and the JSON-serialized issue list.  `uuid` is
the fresh `crypto.randomUUID()` value drawn when `r.id` is nullish. -/
def mkRow (runId : String) (uuid : String) (r : UnhealthyRoute) : LoggedRow :=
  { run_id := runId,
    route_id := match r.id with
      | some i => i
      | none => "unknown-" ++ uuid,
    route_name := if truthy r.name then r.name else none,
    phone_number := if truthy r.phone_number then r.phone_number else none,
    country := if truthy r.country then r.country else none,
    app_version := if truthy r.app_version then r.app_version else none,
    battery := r.battery,
    charging := r.charging,
    last_active_time := r.last_active_time,
    issues := jsonArrayOfList r.issues }

/-- The per-record insert loop of `storeUnhealthyRoutes`: each insert is
attempted inside its own try/catch; a failing insert logs
"DB Insert Error (single route)" and the loop continues. -/
def insertLoop (w : World) (runId : String) :
    List UnhealthyRoute → Nat → List Effect
  | [], _ => []
  | r :: rest, i =>
      (Effect.dbInsert (mkRow runId (w.uuids i) r) ::
        match w.insertResult i with
        | some _ => [Effect.log "DB Insert Error (single route)"]
        | none => []) ++ insertLoop w runId rest (i + 1)

/-- `storeUnhealthyRoutes(unhealthyRoutes, runId)`: an empty batch returns
before any connection is acquired; `pool.connect()` is awaited outside the
try/finally, so a connection-acquisition failure propagates to the caller;
otherwise the insert loop runs inside try (with the outer catch logging
"DB Insert Error (outer)", unreachable for the loop body, whose failures
are caught per record) and `client.release()` runs in the finally block.
The second component is the exception escaping the call, if any. -/
def storeUnhealthyRoutes (w : World) (routes : List UnhealthyRoute)
    (runId : String) : List Effect × Option String :=
  if routes.isEmpty then ([], none)
  else
    match w.connectResult with
    | Except.error e => ([Effect.dbConnect], some e)
    | Except.ok _ =>
        (Effect.dbConnect :: insertLoop w runId routes 0 ++ [Effect.dbRelease],
          none)

/-- The mention prefix of one alert line: `routeOwners[r.name]` looked up
and rendered as `<@id> ` when truthy, else empty. -/
def mentionOf (w : World) (r : UnhealthyRoute) : String :=
  match r.name.bind w.routeOwners with
  | some sid => if sid = "" then "" else "<@" ++ sid ++ "> "
  | none => ""

/-- One line of the alert body:
`` `• ${mention}${r.name || r.id} (${r.phone_number || "unknown"}): ${r.issues.join(", ")}` ``. -/
def slackLine (w : World) (r : UnhealthyRoute) : String :=
  "• " ++ mentionOf w r ++ jsStr (jsOr r.name r.id) ++ " (" ++
    jsStr (jsOr r.phone_number (some "unknown")) ++ "): " ++
    String.intercalate ", " r.issues

/-- The full alert text: the run-id header followed by one line per
unhealthy record, joined by newlines. -/
def slackMessage (w : World) (routes : List UnhealthyRoute)
    (runId : String) : String :=
  "DSL Route Health Check — run_id: " ++ runId ++
    "\nUnhealthy routes detected:\n" ++
    String.intercalate "\n" (routes.map (slackLine w))

/-- `sendSlackAlert(unhealthyRoutes, runId)`: warns and returns when the
channel is not configured; otherwise posts one message, logging
"Slack Notification Error" when delivery fails.  The try/catch swallows
the delivery failure, so the call never throws (second component). -/
def sendSlackAlert (w : World) (routes : List UnhealthyRoute)
    (runId : String) : List Effect × Option String :=
  if ¬w.slackConfigured then
    ([Effect.log "Slack not configured - skipping Slack alert"], none)
  else
    (Effect.slackPost (slackMessage w routes runId) ::
      match w.slackResult with
      | some _ => [Effect.log "Slack Notification Error"]
      | none => [], none)

/-- The JSON body of the HTTP response; fields absent from the serialized
object are `none`. -/
structure JsonBody where
  status : Option String := none
  run_id : Option String := none
  total_routes : Option Nat := none
  unhealthy_count : Option Nat := none
  unhealthy_routes : Option (List UnhealthyRoute) := none
  error : Option String := none
deriving DecidableEq

/-- An HTTP response of the cloud function. -/
structure HttpResponse where
  status : Nat
  body : JsonBody
deriving DecidableEq

/-- The HTTP-triggered entry point `monitorDSLRoutes`: fetch (502 on
failure), filter to `vars.dsl_managed === true`, classify, and either
report all-healthy, or persist (its escaping exception caught and logged
as "storeUnhealthyRoutes failed") then notify, and report the unhealthy
summary. -/
def monitorDSLRoutes (w : World) : List Effect × HttpResponse :=
  match w.fetchResult with
  | Except.error _ =>
      ([Effect.log "Telerivet API Error"],
        { status := 502,
          body := { error := some "Failed to fetch Telerivet routes" } })
  | Except.ok payload =>
      let allRoutes := payload.getD []
      let routes := allRoutes.filter fun r => r.dsl_managed = some true
      let unhealthy := unhealthyOf w.now routes
      if unhealthy.isEmpty then
        ([], { status := 200,
               body := { status := some "ok",
                         total_routes := some routes.length,
                         unhealthy_count := some 0 } })
      else
        let store := storeUnhealthyRoutes w unhealthy w.runId
        let storeCatch := match store.2 with
          | some _ => [Effect.log "storeUnhealthyRoutes failed"]
          | none => []
        let slack := sendSlackAlert w unhealthy w.runId
        (store.1 ++ storeCatch ++ slack.1,
          { status := 200,
            body := { status := some "ok",
                      run_id := some w.runId,
                      total_routes := some routes.length,
                      unhealthy_count := some unhealthy.length,
                      unhealthy_routes := some unhealthy } })

/-- The external collaborators of one dev-script run: whether both
Telerivet environment variables are present, the fetch outcome, the clock
and the chat delivery outcome (the dev script reads no database and does
no owner lookup). -/
structure DevWorld where
  apiConfigured : Bool
  fetchResult : Except String (Option (List DeviceRecord))
  now : ℚ
  slackResult : Option String

/-- One line of the dev-script alert body:
`` `• ${r.name} (${r.phone_number}): ${r.issues.join(", ")}` `` (no owner
mention, no fallbacks). -/
def devLine (r : UnhealthyRoute) : String :=
  "• " ++ jsStr r.name ++ " (" ++ jsStr r.phone_number ++ "): " ++
    String.intercalate ", " r.issues

/-- The dev-script alert text (header has no run id). -/
def devMessage (routes : List UnhealthyRoute) : String :=
  "DSL Route Health Check\nUnhealthy routes detected:\n" ++
    String.intercalate "\n" (routes.map devLine)

/-- The dev-script `sendSlackAlert(unhealthyRoutes)`: posts one message,
logging and swallowing a delivery failure. -/
def devSendSlackAlert (w : DevWorld) (routes : List UnhealthyRoute) :
    List Effect :=
  Effect.slackPost (devMessage routes) ::
    match w.slackResult with
    | some _ => [Effect.log "Slack Notification Error"]
    | none => []

/-- The one-shot dev script `testTelerivetRoutes`: exits when the
Telerivet credentials are missing, returns after logging on fetch failure,
classifies every fetched record (no management-flag filter), and alerts
when any record is unhealthy. -/
def testTelerivetRoutes (w : DevWorld) : List Effect :=
  if ¬w.apiConfigured then
    [Effect.log
      "Missing TELERIVET_API_KEY or TELERIVET_PROJECT_ID environment variables."]
  else
    match w.fetchResult with
    | Except.error _ => [Effect.log "Telerivet API Error"]
    | Except.ok payload =>
        let routes := payload.getD []
        let unhealthy := unhealthyOf w.now routes
        if unhealthy.isEmpty then []
        else devSendSlackAlert w unhealthy

/-- Whether an effect is a database-insert attempt. -/
def isInsert : Effect → Bool
  | Effect.dbInsert _ => true
  | _ => false

/-- Whether an effect is a chat post. -/
def isSlackPost : Effect → Bool
  | Effect.slackPost _ => true
  | _ => false

/-- Whether an effect touches the durable store. -/
def isDbEffect : Effect → Bool
  | Effect.dbConnect => true
  | Effect.dbInsert _ => true
  | Effect.dbRelease => true
  | _ => false

/-- Whether a trace shows the Notifier ran: it either posted a message or
warned that the channel is not configured. -/
def notifierRan (tr : List Effect) : Bool :=
  tr.any fun e =>
    match e with
    | Effect.slackPost _ => true
    | Effect.log c => c = "Slack not configured - skipping Slack alert"
    | _ => false

/-- The sequence of rows bound by insert attempts, in trace order. -/
def insertedRows : List Effect → List LoggedRow
  | [] => []
  | Effect.dbInsert row :: rest => row :: insertedRows rest
  | _ :: rest => insertedRows rest

/-- The raw routes the run fetched (empty on fetch failure or a non-array
payload). -/
def fetchedRoutes (w : World) : List DeviceRecord :=
  match w.fetchResult with
  | Except.ok payload => payload.getD []
  | Except.error _ => []

/-- The routes the HTTP variant considers: the fetched routes restricted
to `vars.dsl_managed === true`. -/
def managedRoutes (w : World) : List DeviceRecord :=
  (fetchedRoutes w).filter fun r => r.dsl_managed = some true

/-- The unhealthy records of one HTTP-variant run. -/
def pipelineUnhealthy (w : World) : List UnhealthyRoute :=
  unhealthyOf w.now (managedRoutes w)

section MessageFacts

theorem head_of_msg_append (s t : String) (c : Char) (cs : List Char)
    (h : s.data = c :: cs) : (s ++ t).data.head? = some c := by
  rw [String.data_append, h]
  rfl

theorem criticalMsg_headChar (b : ℚ) :
    (criticalMsg b).data.head? = some 'C' := by
  unfold criticalMsg
  rw [String.data_append, String.data_append]
  rfl

theorem lowMsg_headChar (b : ℚ) : (lowMsg b).data.head? = some 'B' := by
  unfold lowMsg
  rw [String.data_append, String.data_append]
  rfl

theorem staleMsg_headChar (m : ℚ) : (staleMsg m).data.head? = some 'L' := by
  unfold staleMsg
  rw [String.data_append, String.data_append]
  rfl

theorem criticalMsg_ne_lowMsg (b b' : ℚ) : criticalMsg b ≠ lowMsg b' := by
  intro h
  have h2 : (criticalMsg b).data.head? = (lowMsg b').data.head? := by rw [h]
  rw [criticalMsg_headChar, lowMsg_headChar] at h2
  simp at h2

theorem criticalMsg_ne_staleMsg (b m : ℚ) : criticalMsg b ≠ staleMsg m := by
  intro h
  have h2 : (criticalMsg b).data.head? = (staleMsg m).data.head? := by rw [h]
  rw [criticalMsg_headChar, staleMsg_headChar] at h2
  simp at h2

theorem lowMsg_ne_staleMsg (b m : ℚ) : lowMsg b ≠ staleMsg m := by
  intro h
  have h2 : (lowMsg b).data.head? = (staleMsg m).data.head? := by rw [h]
  rw [lowMsg_headChar, staleMsg_headChar] at h2
  simp at h2

theorem criticalMsg_ne_never (b : ℚ) :
    criticalMsg b ≠ "Never reported active" := by
  intro h
  have h2 : (criticalMsg b).data.head? =
      ("Never reported active" : String).data.head? := by rw [h]
  rw [criticalMsg_headChar] at h2
  simp at h2

theorem lowMsg_ne_never (b : ℚ) : lowMsg b ≠ "Never reported active" := by
  intro h
  have h2 : (lowMsg b).data.head? =
      ("Never reported active" : String).data.head? := by rw [h]
  rw [lowMsg_headChar] at h2
  simp at h2

theorem lowMsg_not_mem_staleness (b now : ℚ) (r : DeviceRecord) :
    lowMsg b ∉ stalenessIssues now r := by
  unfold stalenessIssues
  cases r.last_active_time with
  | none => simpa using lowMsg_ne_never b
  | some t =>
      dsimp only
      split_ifs
      · simpa using lowMsg_ne_never b
      · simpa using lowMsg_ne_staleMsg b _
      · simp

theorem criticalMsg_not_mem_staleness (b now : ℚ) (r : DeviceRecord) :
    criticalMsg b ∉ stalenessIssues now r := by
  unfold stalenessIssues
  cases r.last_active_time with
  | none => simpa using criticalMsg_ne_never b
  | some t =>
      dsimp only
      split_ifs
      · simpa using criticalMsg_ne_never b
      · simpa using criticalMsg_ne_staleMsg b _
      · simp

theorem stalenessIssues_len (now : ℚ) (r : DeviceRecord) :
    (stalenessIssues now r).length ≤ 1 := by
  unfold stalenessIssues
  cases r.last_active_time with
  | none => simp
  | some t =>
      dsimp only
      split_ifs <;> simp

end MessageFacts

/-- A managed route that never reported active (no battery reading). -/
def rNever : DeviceRecord :=
  { id := some "PN1", name := some "Router-A", phone_number := some "+15550001",
    country := some "US", app_version := some "4.2", battery := none,
    charging := none, last_active_time := none, dsl_managed := some true }

/-- A managed route with a critical battery that is charging. -/
def rCrit : DeviceRecord :=
  { id := some "PN2", name := some "Router-B", phone_number := none,
    country := none, app_version := none, battery := some 10,
    charging := some true, last_active_time := none,
    dsl_managed := some true }

/-- A managed route with a low battery that is not charging. -/
def rLow : DeviceRecord :=
  { id := some "PN3", name := some "Router-C", phone_number := some "+15550003",
    country := some "US", app_version := some "4.2", battery := some 25,
    charging := some false, last_active_time := none,
    dsl_managed := some true }

/-- A healthy-battery managed route. -/
def rHealthyBattery : DeviceRecord :=
  { id := some "PN4", name := some "Router-D", phone_number := some "+15550004",
    country := some "US", app_version := some "4.2", battery := some 50,
    charging := some false, last_active_time := none,
    dsl_managed := some true }

/-- A route last active at epoch second 10 (i.e. 2 minutes before a clock
of 130000 ms). -/
def rStale : DeviceRecord :=
  { id := some "PN5", name := some "Router-E", phone_number := some "+15550005",
    country := some "US", app_version := some "4.2", battery := none,
    charging := none, last_active_time := some 10, dsl_managed := some true }

/-- C1: for every device record and current time, the battery rules run
only when the battery field is numeric; below 20 exactly the critical
issue is emitted (and the low-battery issue nowhere in the classifier
output); otherwise below 30 with `charging === false` exactly the
low-battery issue is emitted (and the critical issue nowhere in the
output); the two battery issue texts always differ, and at most one
battery issue is produced per record. -/
theorem battery_rules_c1 (now : ℚ) (r : DeviceRecord) :
    (r.battery = none → batteryIssues r = []) ∧
    (∀ b, r.battery = some b → b < 20 →
      batteryIssues r = [criticalMsg b] ∧ criticalMsg b ∈ classify now r ∧
        ∀ b', lowMsg b' ∉ classify now r) ∧
    (∀ b, r.battery = some b → ¬b < 20 → b < 30 → r.charging = some false →
      batteryIssues r = [lowMsg b] ∧ lowMsg b ∈ classify now r ∧
        ∀ b', criticalMsg b' ∉ classify now r) ∧
    (∀ b b', criticalMsg b ≠ lowMsg b') ∧
    (batteryIssues r).length ≤ 1 := by
  refine ⟨?_, ?_, ?_, criticalMsg_ne_lowMsg, ?_⟩
  · intro h
    unfold batteryIssues
    rw [h]
  · intro b hb hlt
    have hbat : batteryIssues r = [criticalMsg b] := by
      unfold batteryIssues
      rw [hb]
      dsimp only
      rw [if_pos hlt]
    refine ⟨hbat, ?_, ?_⟩
    · unfold classify
      rw [hbat]
      simp
    · intro b'
      unfold classify
      rw [hbat]
      intro hmem
      rcases List.mem_append.1 hmem with h1 | h1
      · exact lowMsg_not_mem_staleness b' now r h1
      · rcases List.mem_singleton.1 h1 with h2
        exact criticalMsg_ne_lowMsg b b' h2.symm
  · intro b hb hge hlt hch
    have hbat : batteryIssues r = [lowMsg b] := by
      unfold batteryIssues
      rw [hb]
      dsimp only
      rw [if_neg hge, if_pos ⟨hlt, hch⟩]
    refine ⟨hbat, ?_, ?_⟩
    · unfold classify
      rw [hbat]
      simp
    · intro b'
      unfold classify
      rw [hbat]
      intro hmem
      rcases List.mem_append.1 hmem with h1 | h1
      · exact criticalMsg_not_mem_staleness b' now r h1
      · rcases List.mem_singleton.1 h1 with h2
        exact criticalMsg_ne_lowMsg b' b h2
  · unfold batteryIssues
    cases r.battery with
    | none => simp
    | some b =>
        dsimp only
        split_ifs <;> simp

/-- Witness for C1: the critical branch at battery 10 with charging true,
and the low branch at battery 25 with charging false. -/
theorem battery_rules_c1_witness :
    rCrit.battery = some 10 ∧ (10 : ℚ) < 20 ∧
      batteryIssues rCrit = [criticalMsg 10] ∧
      (∀ b', lowMsg b' ∉ classify 0 rCrit) ∧
    rLow.battery = some 25 ∧ ¬(25 : ℚ) < 20 ∧ (25 : ℚ) < 30 ∧
      rLow.charging = some false ∧ batteryIssues rLow = [lowMsg 25] := by
  have h1 := (battery_rules_c1 0 rCrit).2.1 10 rfl (by norm_num)
  have h2 := (battery_rules_c1 0 rLow).2.2.1 25 rfl (by norm_num) (by norm_num) rfl
  exact ⟨rfl, by norm_num, h1.1, h1.2.2, rfl, by norm_num, by norm_num, rfl,
    h2.1⟩

/-- Counterexample to C2: the record `rCrit` has battery 10 < 30 and a
charging flag that is not `false`, yet the classifier does produce a
battery issue for it (the critical one). -/
theorem battery_no_issue_c2_counterexample :
    rCrit.battery = some 10 ∧ (10 : ℚ) < 30 ∧ rCrit.charging ≠ some false ∧
      batteryIssues rCrit ≠ [] ∧ criticalMsg 10 ∈ classify 0 rCrit := by
  refine ⟨rfl, by norm_num, by decide, by decide, by decide⟩

/-- C2 (amended): for every record whose battery is numeric and at least
30, and for every record whose battery is numeric, at least 20 and below
30 with a charging flag other than `false`, the classifier produces no
battery issue (and no battery issue text anywhere in its output). -/
theorem battery_no_issue_c2_amended (now : ℚ) (r : DeviceRecord) (b : ℚ)
    (hb : r.battery = some b)
    (h : 30 ≤ b ∨ (20 ≤ b ∧ b < 30 ∧ r.charging ≠ some false)) :
    batteryIssues r = [] ∧
      (∀ b', criticalMsg b' ∉ classify now r) ∧
      ∀ b', lowMsg b' ∉ classify now r := by
  have hbat : batteryIssues r = [] := by
    unfold batteryIssues
    rw [hb]
    dsimp only
    rcases h with h30 | ⟨h20, h30, hch⟩
    · rw [if_neg (by linarith), if_neg]
      intro hand
      linarith [hand.1]
    · rw [if_neg (by linarith), if_neg]
      intro hand
      exact hch hand.2
  refine ⟨hbat, ?_, ?_⟩
  · intro b' hmem
    unfold classify at hmem
    rw [hbat] at hmem
    rcases List.mem_append.1 hmem with h1 | h1
    · exact criticalMsg_not_mem_staleness b' now r h1
    · simp at h1
  · intro b' hmem
    unfold classify at hmem
    rw [hbat] at hmem
    rcases List.mem_append.1 hmem with h1 | h1
    · exact lowMsg_not_mem_staleness b' now r h1
    · simp at h1

/-- Witness for the amended C2: battery 50 (≥ 30, not charging) yields no
battery issue. -/
theorem battery_no_issue_c2_amended_witness :
    rHealthyBattery.battery = some 50 ∧ (30 : ℚ) ≤ 50 ∧
      batteryIssues rHealthyBattery = [] := by
  refine ⟨rfl, by norm_num, ?_⟩
  exact (battery_no_issue_c2_amended 0 rHealthyBattery 50 rfl
    (Or.inl (by norm_num))).1

/-- C3: the staleness rule is evaluated first (its issues are the leading
segment of the classifier output) and produces at most one issue; an
absent or zero last-active timestamp yields "Never reported active";
otherwise, with minutesAgo = (now − lastActive·1000)/60000, a staleness
issue is produced iff minutesAgo > 1 and carries the one-decimal
rendering; a nonzero timestamp equal to exactly now yields no staleness
issue, and one 2 minutes in the past yields "Last active 2.0 minutes
ago". -/
theorem staleness_rule_c3 (now : ℚ) (r : DeviceRecord) :
    ((r.last_active_time = none ∨ r.last_active_time = some 0) →
      stalenessIssues now r = ["Never reported active"]) ∧
    (∀ t, r.last_active_time = some t → t ≠ 0 →
      (stalenessIssues now r ≠ [] ↔ 1 < (now - t * 1000) / 60000) ∧
      stalenessIssues now r =
        (if 1 < (now - t * 1000) / 60000 then
          [staleMsg ((now - t * 1000) / 60000)] else [])) ∧
    (∀ t, r.last_active_time = some t → t ≠ 0 → t * 1000 = now →
      stalenessIssues now r = []) ∧
    (∀ t, r.last_active_time = some t → t ≠ 0 → now - t * 1000 = 120000 →
      stalenessIssues now r = ["Last active 2.0 minutes ago"]) ∧
    (stalenessIssues now r).length ≤ 1 ∧
    (classify now r).take (stalenessIssues now r).length =
      stalenessIssues now r := by
  have hshape : ∀ t, r.last_active_time = some t → t ≠ 0 →
      stalenessIssues now r =
        (if 1 < (now - t * 1000) / 60000 then
          [staleMsg ((now - t * 1000) / 60000)] else []) := by
    intro t ht htz
    unfold stalenessIssues
    rw [ht]
    dsimp only
    rw [if_neg htz]
  refine ⟨?_, ?_, ?_, ?_, stalenessIssues_len now r, ?_⟩
  · rintro (h | h) <;> unfold stalenessIssues <;> rw [h]
    dsimp only
    rw [if_pos rfl]
  · intro t ht htz
    refine ⟨?_, hshape t ht htz⟩
    rw [hshape t ht htz]
    constructor
    · intro hne
      by_contra hlt
      rw [if_neg hlt] at hne
      exact hne rfl
    · intro hlt
      rw [if_pos hlt]
      simp
  · intro t ht htz hnow
    rw [hshape t ht htz]
    rw [if_neg]
    intro hlt
    rw [← hnow] at hlt
    simp at hlt
    linarith
  · intro t ht htz hdiff
    rw [hshape t ht htz, hdiff]
    norm_num
    decide
  · unfold classify
    rw [List.take_left]

/-- Witness for C3: an absent timestamp yields "Never reported active"; at
clock 130000 ms, a last-active of epoch second 10 (2 minutes earlier)
yields "Last active 2.0 minutes ago". -/
theorem staleness_rule_c3_witness :
    rNever.last_active_time = none ∧
      stalenessIssues 0 rNever = ["Never reported active"] ∧
    rStale.last_active_time = some 10 ∧ (10 : ℚ) ≠ 0 ∧
      (130000 : ℚ) - 10 * 1000 = 120000 ∧
      stalenessIssues 130000 rStale = ["Last active 2.0 minutes ago"] := by
  refine ⟨rfl, (staleness_rule_c3 0 rNever).1 (Or.inl rfl), rfl, by norm_num,
    by norm_num, ?_⟩
  exact (staleness_rule_c3 130000 rStale).2.2.2.1 10 rfl (by norm_num)
    (by norm_num)

section PersisterFacts

theorem insertLoop_countP (w : World) (runId : String)
    (rs : List UnhealthyRoute) (i : Nat) :
    (insertLoop w runId rs i).countP isInsert = rs.length := by
  induction rs generalizing i with
  | nil => rfl
  | cons r rest ih =>
      unfold insertLoop
      rw [List.countP_append]
      rw [ih (i + 1)]
      cases w.insertResult i <;> simp [isInsert, List.countP_cons] <;> omega

theorem insertLoop_log_of_failure (w : World) (runId : String)
    (rs : List UnhealthyRoute) (i j : Nat) (hj : j < rs.length)
    (hfail : (w.insertResult (i + j)).isSome) :
    Effect.log "DB Insert Error (single route)" ∈ insertLoop w runId rs i := by
  induction rs generalizing i j with
  | nil => exact absurd hj (by simp)
  | cons r rest ih =>
      unfold insertLoop
      rw [List.mem_append]
      cases j with
      | zero =>
          left
          rw [Nat.add_zero] at hfail
          match hr : w.insertResult i with
          | some e => simp
          | none => rw [hr] at hfail; simp at hfail
      | succ j' =>
          right
          have hj' : j' < rest.length := by
            simpa [Nat.succ_lt_succ_iff] using hj
          have : (w.insertResult (i + 1 + j')).isSome := by
            have harith : i + 1 + j' = i + (j' + 1) := by omega
            rw [harith]
            exact hfail
          exact ih (i + 1) j' hj' this

theorem insertLoop_no_post (w : World) (runId : String)
    (rs : List UnhealthyRoute) (i : Nat) :
    (insertLoop w runId rs i).countP isSlackPost = 0 := by
  induction rs generalizing i with
  | nil => rfl
  | cons r rest ih =>
      unfold insertLoop
      rw [List.countP_append]
      rw [ih (i + 1)]
      cases w.insertResult i <;> simp [isSlackPost, List.countP_cons]

theorem insertedRows_insertLoop (w : World) (runId : String)
    (rs : List UnhealthyRoute) (i : Nat) :
    insertedRows (insertLoop w runId rs i) =
      (List.enumFrom i rs).map fun p => mkRow runId (w.uuids p.1) p.2 := by
  induction rs generalizing i with
  | nil => rfl
  | cons r rest ih =>
      unfold insertLoop
      cases hr : w.insertResult i <;>
        simp [insertedRows, List.enumFrom, ih (i + 1)]

theorem insertedRows_append (a b : List Effect) :
    insertedRows (a ++ b) = insertedRows a ++ insertedRows b := by
  induction a with
  | nil => rfl
  | cons e rest ih =>
      cases e <;> simp [insertedRows, ih]

theorem store_ok_trace (w : World) (routes : List UnhealthyRoute)
    (runId : String) (hne : routes ≠ [])
    (hconn : w.connectResult = Except.ok ()) :
    storeUnhealthyRoutes w routes runId =
      (Effect.dbConnect :: insertLoop w runId routes 0 ++ [Effect.dbRelease],
        none) := by
  unfold storeUnhealthyRoutes
  rw [if_neg (by simpa [List.isEmpty_iff] using hne), hconn]

theorem sendSlackAlert_no_insert (w : World) (routes : List UnhealthyRoute)
    (runId : String) :
    (sendSlackAlert w routes runId).1.countP isInsert = 0 := by
  unfold sendSlackAlert
  by_cases hc : w.slackConfigured
  · rw [if_neg (by simpa using hc)]
    cases w.slackResult <;> simp [isInsert, List.countP_cons]
  · rw [if_pos (by simpa using hc)]
    simp [isInsert]

theorem sendSlackAlert_ran (w : World) (routes : List UnhealthyRoute)
    (runId : String) :
    notifierRan (sendSlackAlert w routes runId).1 = true := by
  unfold sendSlackAlert notifierRan
  split_ifs
  · simp
  · cases w.slackResult <;> simp

theorem notifierRan_append_right (a b : List Effect)
    (h : notifierRan b = true) : notifierRan (a ++ b) = true := by
  unfold notifierRan at *
  rw [List.any_append, h]
  simp

end PersisterFacts

/-- Unhealthy counterparts of the witness device records. -/
def uNever : UnhealthyRoute := toUnhealthy rNever ["Never reported active"]

/-- Unhealthy counterpart of `rCrit`. -/
def uCrit : UnhealthyRoute :=
  toUnhealthy rCrit ["Never reported active", "Critical battery level (10%)"]

/-- An unhealthy record with a nullish id and falsy name, as the Persister
receives it. -/
def uAnon : UnhealthyRoute :=
  { id := none, name := none, phone_number := some "+15550009",
    country := none, app_version := some "4.2", battery := some 10,
    charging := some false, last_active_time := some 99,
    issues := ["Critical battery level (10%)"] }

/-- A world whose fetch yields one managed never-active route, whose first
insert fails while later ones succeed, with a configured channel. -/
def w4 : World :=
  { fetchResult := Except.ok (some [rNever, rCrit]), now := 0,
    runId := "run-c4", uuids := fun i => "uuid-" ++ toString i,
    connectResult := Except.ok (),
    insertResult := fun i => if i = 0 then some "insert refused" else none,
    slackConfigured := true, slackResult := none,
    routeOwners := fun n => if n = "Router-A" then some "U123" else none }

/-- A world whose connection acquisition fails. -/
def wConnFail : World :=
  { fetchResult := Except.ok (some [rNever]), now := 0, runId := "run-c5",
    uuids := fun _ => "uuid-0", connectResult := Except.error "connect refused",
    insertResult := fun _ => none, slackConfigured := true,
    slackResult := none, routeOwners := fun _ => none }

/-- A world whose upstream fetch throws. -/
def wFetchFail : World :=
  { fetchResult := Except.error "ETIMEDOUT", now := 0, runId := "run-c6",
    uuids := fun _ => "uuid-0", connectResult := Except.ok (),
    insertResult := fun _ => none, slackConfigured := true,
    slackResult := none, routeOwners := fun _ => none }

/-- A world whose fetch yields an empty route list (an all-healthy run). -/
def wHealthy : World :=
  { fetchResult := Except.ok (some []), now := 0, runId := "run-c7",
    uuids := fun _ => "uuid-0", connectResult := Except.ok (),
    insertResult := fun _ => none, slackConfigured := true,
    slackResult := none, routeOwners := fun _ => none }

/-- C4: when the fetch succeeds, some records are unhealthy, the
connection is acquired, and exactly one insert of the batch fails while
the rest succeed, the Persister logs the per-record failure and still
attempts every insert, returns without raising, releases the connection,
and the pipeline still runs the Notifier and answers 200. -/
theorem persister_isolates_insert_failure_c4 (w : World)
    (payload : Option (List DeviceRecord))
    (hf : w.fetchResult = Except.ok payload)
    (hconn : w.connectResult = Except.ok ())
    (hne : pipelineUnhealthy w ≠ []) (m : Nat)
    (hm : m < (pipelineUnhealthy w).length)
    (hfail : (w.insertResult m).isSome)
    (hrest : ∀ j < (pipelineUnhealthy w).length, j ≠ m →
      w.insertResult j = none) :
    (storeUnhealthyRoutes w (pipelineUnhealthy w) w.runId).1.countP isInsert =
        (pipelineUnhealthy w).length ∧
    Effect.log "DB Insert Error (single route)" ∈
        (storeUnhealthyRoutes w (pipelineUnhealthy w) w.runId).1 ∧
    (storeUnhealthyRoutes w (pipelineUnhealthy w) w.runId).2 = none ∧
    Effect.dbRelease ∈
        (storeUnhealthyRoutes w (pipelineUnhealthy w) w.runId).1 ∧
    (monitorDSLRoutes w).1.countP isInsert = (pipelineUnhealthy w).length ∧
    notifierRan (monitorDSLRoutes w).1 = true ∧
    (monitorDSLRoutes w).2.status = 200 := by
  have hstore := store_ok_trace w (pipelineUnhealthy w) w.runId hne hconn
  have hlog : Effect.log "DB Insert Error (single route)" ∈
      insertLoop w w.runId (pipelineUnhealthy w) 0 := by
    have := insertLoop_log_of_failure w w.runId (pipelineUnhealthy w) 0 m hm
      (by simpa using hfail)
    exact this
  have hcount : (storeUnhealthyRoutes w (pipelineUnhealthy w) w.runId).1.countP
      isInsert = (pipelineUnhealthy w).length := by
    rw [hstore]
    simp only [List.countP_cons, List.countP_append]
    rw [insertLoop_countP]
    simp [isInsert]
  have hpu : pipelineUnhealthy w =
      unhealthyOf w.now ((payload.getD []).filter
        fun r => r.dsl_managed = some true) := by
    unfold pipelineUnhealthy managedRoutes fetchedRoutes
    rw [hf]
  have hmonitor : monitorDSLRoutes w =
      ((storeUnhealthyRoutes w (pipelineUnhealthy w) w.runId).1 ++
        [] ++ (sendSlackAlert w (pipelineUnhealthy w) w.runId).1,
        { status := 200,
          body := { status := some "ok", run_id := some w.runId,
                    total_routes := some (managedRoutes w).length,
                    unhealthy_count := some (pipelineUnhealthy w).length,
                    unhealthy_routes := some (pipelineUnhealthy w) } }) := by
    unfold monitorDSLRoutes
    rw [hf]
    dsimp only
    rw [← hpu]
    rw [if_neg (by simpa [List.isEmpty_iff] using hne)]
    rw [hstore]
    have hmr : managedRoutes w = (payload.getD []).filter
        (fun r => r.dsl_managed = some true) := by
      unfold managedRoutes fetchedRoutes
      rw [hf]
    rw [← hmr]
  refine ⟨hcount, ?_, ?_, ?_, ?_, ?_, ?_⟩
  · rw [hstore]
    exact List.mem_cons_of_mem _ (List.mem_append.2 (Or.inl hlog))
  · rw [hstore]
  · rw [hstore]
    simp
  · rw [hmonitor]
    simp only [List.countP_append]
    rw [hcount, sendSlackAlert_no_insert]
    simp
  · rw [hmonitor]
    exact notifierRan_append_right _ _ (sendSlackAlert_ran w _ _)
  · rw [hmonitor]

/-- Witness for C4: in `w4` (two unhealthy routes, first insert refused)
all conclusions of the claim hold. -/
theorem persister_isolates_insert_failure_c4_witness :
    (w4.insertResult 0).isSome ∧ pipelineUnhealthy w4 ≠ [] ∧
    (storeUnhealthyRoutes w4 (pipelineUnhealthy w4) w4.runId).1.countP
        isInsert = (pipelineUnhealthy w4).length ∧
    Effect.log "DB Insert Error (single route)" ∈
        (storeUnhealthyRoutes w4 (pipelineUnhealthy w4) w4.runId).1 ∧
    (storeUnhealthyRoutes w4 (pipelineUnhealthy w4) w4.runId).2 = none ∧
    Effect.dbRelease ∈
        (storeUnhealthyRoutes w4 (pipelineUnhealthy w4) w4.runId).1 ∧
    notifierRan (monitorDSLRoutes w4).1 = true ∧
    (monitorDSLRoutes w4).2.status = 200 := by
  have h := persister_isolates_insert_failure_c4 w4 (some [rNever, rCrit])
    rfl rfl (by decide) 0 (by decide) (by decide)
    (by decide)
  exact ⟨by decide, by decide, h.1, h.2.1, h.2.2.1, h.2.2.2.1,
    h.2.2.2.2.2.1, h.2.2.2.2.2.2⟩

/-- Counterexample to C5: with connection acquisition failing, the call to
`storeUnhealthyRoutes` raises (returns an escaping exception) instead of
catching it, and its trace carries no log effect — the Persister itself
neither catches nor logs the batch-level failure. -/
theorem persister_outer_failure_c5_counterexample :
    (storeUnhealthyRoutes wConnFail [uNever] "run-c5").2 =
        some "connect refused" ∧
    (storeUnhealthyRoutes wConnFail [uNever] "run-c5").1 =
        [Effect.dbConnect] := by
  constructor <;> rfl

/-- C5 (amended): a connection-acquisition failure escapes the Persister;
the coordinator's wrapper catches it and logs "storeUnhealthyRoutes
failed", the Notifier still runs afterwards, and the run still answers
200. -/
theorem persister_outer_failure_c5_amended (w : World) (e : String)
    (payload : Option (List DeviceRecord))
    (hf : w.fetchResult = Except.ok payload)
    (hconn : w.connectResult = Except.error e)
    (hne : pipelineUnhealthy w ≠ []) :
    (storeUnhealthyRoutes w (pipelineUnhealthy w) w.runId).2 = some e ∧
    Effect.log "storeUnhealthyRoutes failed" ∈ (monitorDSLRoutes w).1 ∧
    notifierRan (monitorDSLRoutes w).1 = true ∧
    (monitorDSLRoutes w).2.status = 200 := by
  have hstore : storeUnhealthyRoutes w (pipelineUnhealthy w) w.runId =
      ([Effect.dbConnect], some e) := by
    unfold storeUnhealthyRoutes
    rw [if_neg (by simpa [List.isEmpty_iff] using hne), hconn]
  have hpu : pipelineUnhealthy w =
      unhealthyOf w.now ((payload.getD []).filter
        fun r => r.dsl_managed = some true) := by
    unfold pipelineUnhealthy managedRoutes fetchedRoutes
    rw [hf]
  have hmonitor : monitorDSLRoutes w =
      ([Effect.dbConnect] ++ [Effect.log "storeUnhealthyRoutes failed"] ++
        (sendSlackAlert w (pipelineUnhealthy w) w.runId).1,
        { status := 200,
          body := { status := some "ok", run_id := some w.runId,
                    total_routes := some (managedRoutes w).length,
                    unhealthy_count := some (pipelineUnhealthy w).length,
                    unhealthy_routes := some (pipelineUnhealthy w) } }) := by
    unfold monitorDSLRoutes
    rw [hf]
    dsimp only
    rw [← hpu]
    rw [if_neg (by simpa [List.isEmpty_iff] using hne)]
    rw [hstore]
    have hmr : managedRoutes w = (payload.getD []).filter
        (fun r => r.dsl_managed = some true) := by
      unfold managedRoutes fetchedRoutes
      rw [hf]
    rw [← hmr]
  refine ⟨by rw [hstore], ?_, ?_, ?_⟩
  · rw [hmonitor]
    simp
  · rw [hmonitor]
    exact notifierRan_append_right _ _ (sendSlackAlert_ran w _ _)
  · rw [hmonitor]

/-- Witness for the amended C5: in `wConnFail` the store call raises, the
coordinator logs it, and the Notifier still runs. -/
theorem persister_outer_failure_c5_amended_witness :
    wConnFail.connectResult = Except.error "connect refused" ∧
    pipelineUnhealthy wConnFail ≠ [] ∧
    (storeUnhealthyRoutes wConnFail (pipelineUnhealthy wConnFail)
        wConnFail.runId).2 = some "connect refused" ∧
    Effect.log "storeUnhealthyRoutes failed" ∈
        (monitorDSLRoutes wConnFail).1 ∧
    notifierRan (monitorDSLRoutes wConnFail).1 = true := by
  have h := persister_outer_failure_c5_amended wConnFail "connect refused"
    (some [rNever]) rfl rfl (by decide)
  exact ⟨rfl, by decide, h.1, h.2.1, h.2.2.1⟩

/-- C6: when the upstream fetch throws, the run short-circuits: the only
effect is the failure log (no database access, no classification output
reaching any sink, no notification), and the HTTP variant answers 502
with an error body. -/
theorem fetch_failure_short_circuits_c6 (w : World) (e : String)
    (hf : w.fetchResult = Except.error e) :
    (monitorDSLRoutes w).1 = [Effect.log "Telerivet API Error"] ∧
    (∀ eff ∈ (monitorDSLRoutes w).1,
      isDbEffect eff = false ∧ isSlackPost eff = false) ∧
    (monitorDSLRoutes w).2 =
      { status := 502,
        body := { error := some "Failed to fetch Telerivet routes" } } := by
  have hm : monitorDSLRoutes w = ([Effect.log "Telerivet API Error"],
      { status := 502,
        body := { error := some "Failed to fetch Telerivet routes" } }) := by
    unfold monitorDSLRoutes
    rw [hf]
  refine ⟨by rw [hm], ?_, by rw [hm]⟩
  rw [hm]
  intro eff heff
  rcases List.mem_singleton.1 heff with rfl
  exact ⟨rfl, rfl⟩

/-- Witness for C6: the fetch-failing world `wFetchFail` answers 502 with
only the failure log in its trace. -/
theorem fetch_failure_short_circuits_c6_witness :
    wFetchFail.fetchResult = Except.error "ETIMEDOUT" ∧
    (monitorDSLRoutes wFetchFail).1 = [Effect.log "Telerivet API Error"] ∧
    (monitorDSLRoutes wFetchFail).2.status = 502 := by
  have h := fetch_failure_short_circuits_c6 wFetchFail "ETIMEDOUT" rfl
  exact ⟨rfl, h.1, by rw [h.2.2]⟩

/-- Counterexample to C7: the all-healthy run `wHealthy` terminates
successfully with HTTP 200 and body `{status:"ok", total_routes,
unhealthy_count:0}` — but carries no run id, although the claim requires
every successful terminal outcome to carry it. -/
theorem success_body_c7_counterexample :
    (monitorDSLRoutes wHealthy).2.status = 200 ∧
    (monitorDSLRoutes wHealthy).2.body.status = some "ok" ∧
    (monitorDSLRoutes wHealthy).2.body.unhealthy_count = some 0 ∧
    (monitorDSLRoutes wHealthy).2.body.run_id = none := by
  refine ⟨rfl, rfl, rfl, rfl⟩

/-- C7 (amended): both successful terminal outcomes answer HTTP 200 with
status "ok", the total count after the management-flag pre-filter and the
unhealthy count; the unhealthy outcome additionally carries the run id
and the unhealthy record list, while the all-healthy outcome carries
neither. -/
theorem success_body_c7_amended (w : World)
    (payload : Option (List DeviceRecord))
    (hf : w.fetchResult = Except.ok payload) :
    (pipelineUnhealthy w = [] →
      (monitorDSLRoutes w).2 =
        { status := 200,
          body := { status := some "ok",
                    total_routes := some (managedRoutes w).length,
                    unhealthy_count := some 0 } }) ∧
    (pipelineUnhealthy w ≠ [] →
      (monitorDSLRoutes w).2 =
        { status := 200,
          body := { status := some "ok", run_id := some w.runId,
                    total_routes := some (managedRoutes w).length,
                    unhealthy_count := some (pipelineUnhealthy w).length,
                    unhealthy_routes := some (pipelineUnhealthy w) } }) := by
  have hpu : pipelineUnhealthy w =
      unhealthyOf w.now ((payload.getD []).filter
        fun r => r.dsl_managed = some true) := by
    unfold pipelineUnhealthy managedRoutes fetchedRoutes
    rw [hf]
  have hmr : managedRoutes w = (payload.getD []).filter
      (fun r => r.dsl_managed = some true) := by
    unfold managedRoutes fetchedRoutes
    rw [hf]
  constructor
  · intro hempty
    unfold monitorDSLRoutes
    rw [hf]
    dsimp only
    rw [← hpu, ← hmr]
    rw [if_pos (by simpa [List.isEmpty_iff] using hempty)]
  · intro hne
    unfold monitorDSLRoutes
    rw [hf]
    dsimp only
    rw [← hpu, ← hmr]
    rw [if_neg (by simpa [List.isEmpty_iff] using hne)]

/-- Witness for the amended C7: the healthy world `wHealthy` produces the
run-id-free 200 body; the unhealthy world `w4` produces the full 200
body. -/
theorem success_body_c7_amended_witness :
    (monitorDSLRoutes wHealthy).2 =
      { status := 200,
        body := { status := some "ok", total_routes := some 0,
                  unhealthy_count := some 0 } } ∧
    (monitorDSLRoutes w4).2 =
      { status := 200,
        body := { status := some "ok", run_id := some "run-c4",
                  total_routes := some 2, unhealthy_count := some 2,
                  unhealthy_routes := some [uNever, uCrit] } } := by
  constructor
  · have h := (success_body_c7_amended wHealthy (some []) rfl).1 (by decide)
    rw [h]
    rfl
  · have h := (success_body_c7_amended w4 (some [rNever, rCrit]) rfl).2
      (by decide)
    rw [h]
    rfl

/-- An unhealthy record whose name is not in the owner table. -/
def uZ : UnhealthyRoute :=
  { id := some "PN9", name := some "Router-Z", phone_number := none,
    country := none, app_version := none, battery := some 10,
    charging := some false, last_active_time := none,
    issues := ["Critical battery level (10%)"] }

/-- C8: with a configured channel and a non-empty batch, the Notifier
sends exactly one message — a header naming the run id, then one line per
record in input order in the format
"• {mention}{name-or-id} ({phone-or-unknown}): {issues joined by comma}" —
where the mention is a `<@targetId> ` token when the owner table maps the
record's display name to a (non-empty) target id and is empty when the
name is unlisted; a delivery failure is logged and never propagated. -/
theorem notifier_message_c8 (w : World) (routes : List UnhealthyRoute)
    (runId : String) (hcfg : w.slackConfigured = true)
    ( _hne : routes ≠ []) :
    (sendSlackAlert w routes runId).1.countP isSlackPost = 1 ∧
    Effect.slackPost ("DSL Route Health Check — run_id: " ++ runId ++
      "\nUnhealthy routes detected:\n" ++
      String.intercalate "\n" (routes.map fun r =>
        "• " ++ mentionOf w r ++ jsStr (jsOr r.name r.id) ++ " (" ++
          jsStr (jsOr r.phone_number (some "unknown")) ++ "): " ++
          String.intercalate ", " r.issues)) ∈
      (sendSlackAlert w routes runId).1 ∧
    (∀ r tid, r.name.bind w.routeOwners = some tid → tid ≠ "" →
      mentionOf w r = "<@" ++ tid ++ "> ") ∧
    (∀ r, r.name.bind w.routeOwners = none → mentionOf w r = "") ∧
    (sendSlackAlert w routes runId).2 = none ∧
    (w.slackResult.isSome →
      Effect.log "Slack Notification Error" ∈
        (sendSlackAlert w routes runId).1) := by
  have hsa : sendSlackAlert w routes runId =
      (Effect.slackPost (slackMessage w routes runId) ::
        match w.slackResult with
        | some _ => [Effect.log "Slack Notification Error"]
        | none => [], none) := by
    unfold sendSlackAlert
    rw [if_neg (by simp [hcfg])]
  have hmsg : slackMessage w routes runId =
      "DSL Route Health Check — run_id: " ++ runId ++
        "\nUnhealthy routes detected:\n" ++
        String.intercalate "\n" (routes.map fun r =>
          "• " ++ mentionOf w r ++ jsStr (jsOr r.name r.id) ++ " (" ++
            jsStr (jsOr r.phone_number (some "unknown")) ++ "): " ++
            String.intercalate ", " r.issues) := rfl
  refine ⟨?_, ?_, ?_, ?_, by rw [hsa], ?_⟩
  · rw [hsa]
    cases w.slackResult <;> simp [isSlackPost, List.countP_cons]
  · rw [hsa, ← hmsg]
    exact List.mem_cons_self _ _
  · intro r tid hl htid
    unfold mentionOf
    rw [hl]
    dsimp only
    rw [if_neg htid]
  · intro r hl
    unfold mentionOf
    rw [hl]
  · intro hs
    rw [hsa]
    cases hres : w.slackResult with
    | none => rw [hres] at hs; simp at hs
    | some e => simp

/-- Witness for C8: the batch `[uNever, uZ]` in `w4` (owner table maps
"Router-A" to "U123", "Router-Z" unlisted) yields one post, a mention for
Router-A, no mention for Router-Z, and no escaping exception. -/
theorem notifier_message_c8_witness :
    w4.slackConfigured = true ∧ ([uNever, uZ] : List UnhealthyRoute) ≠ [] ∧
    (sendSlackAlert w4 [uNever, uZ] "run-c4").1.countP isSlackPost = 1 ∧
    mentionOf w4 uNever = "<@U123> " ∧ mentionOf w4 uZ = "" ∧
    (sendSlackAlert w4 [uNever, uZ] "run-c4").2 = none := by
  have h := notifier_message_c8 w4 [uNever, uZ] "run-c4" rfl (by decide)
  exact ⟨rfl, by decide, h.1, h.2.2.1 uNever "U123" (by decide) (by decide),
    h.2.2.2.1 uZ (by decide), h.2.2.2.2.1⟩

/-- The row fields of `mkRow` written the way the spec lists them. -/
theorem mkRow_fields (runId uuid : String) (r : UnhealthyRoute) :
    mkRow runId uuid r =
      { run_id := runId,
        route_id := r.id.getD ("unknown-" ++ uuid),
        route_name := if truthy r.name then r.name else none,
        phone_number := if truthy r.phone_number then r.phone_number
          else none,
        country := if truthy r.country then r.country else none,
        app_version := if truthy r.app_version then r.app_version else none,
        battery := r.battery,
        charging := r.charging,
        last_active_time := r.last_active_time,
        issues := jsonArrayOfList r.issues } := by
  unfold mkRow
  cases r.id <;> rfl

/-- C9: every row the Persister binds carries exactly the run id; the
record id, or the sentinel "unknown-" plus a fresh random UUID when the id
is nullish; the truthy-or-null string columns; the type-guarded battery,
charging and last-active columns; and the JSON-serialized issue list —
one row per record, in input order. -/
theorem persisted_row_values_c9 (w : World) (routes : List UnhealthyRoute)
    (runId : String) (hne : routes ≠ [])
    (hconn : w.connectResult = Except.ok ()) :
    insertedRows (storeUnhealthyRoutes w routes runId).1 =
      (List.enumFrom 0 routes).map fun p =>
        { run_id := runId,
          route_id := p.2.id.getD ("unknown-" ++ w.uuids p.1),
          route_name := if truthy p.2.name then p.2.name else none,
          phone_number := if truthy p.2.phone_number then p.2.phone_number
            else none,
          country := if truthy p.2.country then p.2.country else none,
          app_version := if truthy p.2.app_version then p.2.app_version
            else none,
          battery := p.2.battery,
          charging := p.2.charging,
          last_active_time := p.2.last_active_time,
          issues := jsonArrayOfList p.2.issues } := by
  rw [store_ok_trace w routes runId hne hconn]
  have h1 : insertedRows (Effect.dbConnect ::
      insertLoop w runId routes 0 ++ [Effect.dbRelease]) =
      insertedRows (insertLoop w runId routes 0 ++ [Effect.dbRelease]) := rfl
  rw [h1, insertedRows_append, insertedRows_insertLoop]
  have h2 : insertedRows [Effect.dbRelease] = [] := rfl
  rw [h2, List.append_nil]
  have h3 : (fun p : Nat × UnhealthyRoute =>
      mkRow runId (w.uuids p.1) p.2) = fun p : Nat × UnhealthyRoute =>
      ({ run_id := runId,
         route_id := p.2.id.getD ("unknown-" ++ w.uuids p.1),
         route_name := if truthy p.2.name then p.2.name else none,
         phone_number := if truthy p.2.phone_number then p.2.phone_number
           else none,
         country := if truthy p.2.country then p.2.country else none,
         app_version := if truthy p.2.app_version then p.2.app_version
           else none,
         battery := p.2.battery,
         charging := p.2.charging,
         last_active_time := p.2.last_active_time,
         issues := jsonArrayOfList p.2.issues } : LoggedRow) :=
    funext fun p => mkRow_fields runId (w.uuids p.1) p.2
  rw [h3]

/-- Witness for C9: persisting `[uNever, uAnon]` in `w4` binds the row
with id "PN1" and then, for the id-less record, the synthesized
"unknown-uuid-1" id with null name/country and JSON issues. -/
theorem persisted_row_values_c9_witness :
    ([uNever, uAnon] : List UnhealthyRoute) ≠ [] ∧
    insertedRows (storeUnhealthyRoutes w4 [uNever, uAnon] "run-c9").1 =
      [{ run_id := "run-c9", route_id := "PN1",
         route_name := some "Router-A", phone_number := some "+15550001",
         country := some "US", app_version := some "4.2", battery := none,
         charging := none, last_active_time := none,
         issues := "[\"Never reported active\"]" },
       { run_id := "run-c9", route_id := "unknown-uuid-1",
         route_name := none, phone_number := some "+15550009",
         country := none, app_version := some "4.2", battery := some 10,
         charging := some false, last_active_time := some 99,
         issues := "[\"Critical battery level (10%)\"]" }] := by
  have h := persisted_row_values_c9 w4 [uNever, uAnon] "run-c9" (by decide)
    rfl
  refine ⟨by decide, ?_⟩
  rw [h]
  decide

/-- A device record not flagged as DSL-managed, with an issue. -/
def rUnmanaged : DeviceRecord :=
  { id := some "PN6", name := some "Router-F", phone_number := some "+15550006",
    country := some "US", app_version := some "4.2", battery := none,
    charging := none, last_active_time := none, dsl_managed := some false }

/-- A dev-script world fetching one managed and one unmanaged route. -/
def wDev : DevWorld :=
  { apiConfigured := true,
    fetchResult := Except.ok (some [rNever, rUnmanaged]), now := 0,
    slackResult := none }

/-- C10: the one-shot script touches no database (no connect, insert or
release effect ever appears in its trace), posts at most one notification,
and classifies every fetched record with no management-flag filter: any
fetched record with issues is in the unhealthy list, and the posted
message is built from the unfiltered unhealthy list. -/
theorem dev_script_frame_c10 (w : DevWorld) :
    ((testTelerivetRoutes w).all fun e => !isDbEffect e) = true ∧
    (testTelerivetRoutes w).countP isSlackPost ≤ 1 ∧
    (∀ payload, w.fetchResult = Except.ok payload →
      ∀ r ∈ payload.getD [], classify w.now r ≠ [] →
        toUnhealthy r (classify w.now r) ∈
          unhealthyOf w.now (payload.getD [])) ∧
    (∀ payload, w.fetchResult = Except.ok payload → w.apiConfigured = true →
      unhealthyOf w.now (payload.getD []) ≠ [] →
      Effect.slackPost (devMessage (unhealthyOf w.now (payload.getD []))) ∈
        testTelerivetRoutes w) := by
  refine ⟨?_, ?_, ?_, ?_⟩
  · unfold testTelerivetRoutes
    by_cases ha : w.apiConfigured
    · rw [if_neg (by simp [ha])]
      cases w.fetchResult with
      | error e => simp [isDbEffect]
      | ok payload =>
          dsimp only
          split_ifs
          · simp
          · unfold devSendSlackAlert
            cases w.slackResult <;> simp [isDbEffect]
    · rw [if_pos (by simpa using ha)]
      simp [isDbEffect]
  · unfold testTelerivetRoutes
    by_cases ha : w.apiConfigured
    · rw [if_neg (by simp [ha])]
      cases w.fetchResult with
      | error e => simp [isSlackPost]
      | ok payload =>
          dsimp only
          split_ifs
          · simp
          · unfold devSendSlackAlert
            cases w.slackResult <;>
              simp [isSlackPost, List.countP_cons]
    · rw [if_pos (by simpa using ha)]
      simp [isSlackPost]
  · intro payload hp r hr hcl
    unfold unhealthyOf
    rw [List.mem_filterMap]
    refine ⟨r, hr, ?_⟩
    dsimp only
    rw [if_neg (by simpa [List.isEmpty_iff] using hcl)]
  · intro payload hp hapi hne
    unfold testTelerivetRoutes
    rw [if_neg (by simp [hapi]), hp]
    dsimp only
    rw [if_neg (by simpa [List.isEmpty_iff] using hne)]
    unfold devSendSlackAlert
    exact List.mem_cons_self _ _

/-- Witness for C10: in `wDev` the unmanaged route `rUnmanaged` is still
classified and lands in the unhealthy list, the trace is database-free,
and at most one message is posted. -/
theorem dev_script_frame_c10_witness :
    wDev.fetchResult = Except.ok (some [rNever, rUnmanaged]) ∧
    rUnmanaged.dsl_managed = some false ∧
    classify wDev.now rUnmanaged ≠ [] ∧
    toUnhealthy rUnmanaged (classify wDev.now rUnmanaged) ∈
      unhealthyOf wDev.now [rNever, rUnmanaged] ∧
    ((testTelerivetRoutes wDev).all fun e => !isDbEffect e) = true ∧
    (testTelerivetRoutes wDev).countP isSlackPost ≤ 1 := by
  have h := dev_script_frame_c10 wDev
  refine ⟨rfl, rfl, by decide, ?_, h.1, h.2.1⟩
  have h2 := h.2.2.1 (some [rNever, rUnmanaged]) rfl rUnmanaged (by decide)
    (by decide)
  simpa using h2

end RouteHealth
